import Mathlib

/-!
Shallow embedding of the timewise-calm-flow task-management application,
covering the parts of the code that the verified claims are about:

* the automatic-scheduling edge function
  (src/supabase/functions/generate-suggestions/index.ts and the revision in
  src/unnamed/part_007, whose ensureFullISO helper is embedded separately);
* the Google Calendar sync edge function
  (src/supabase/functions/sync-google-calendar/index.ts);
* the Canvas sync edge function (src/unnamed/part_010), only its outbound
  call structure;
* the task-creation dialog (src/src/components/TaskCreationDialog.tsx) and
  the task fetch of the schedule page (src/unnamed/part_014).

Database tables are embedded as lists of rows, nullable text columns as
Option String, and JavaScript truthiness of such values is made explicit.
Request handlers are embedded as pure functions from their inputs (database
state, parsed model reply, token validity, ...) to the new database state
and the HTTP response; a thrown JavaScript exception is an Except.error
value that the outermost try/catch of each handler turns into an error
response.
-/

namespace TimeWise

/-- Truthiness of a JavaScript string-or-null value: `null`/`undefined` and
the empty string are falsy, every other string is truthy. -/
def jsTruthy : Option String → Bool
  | none => false
  | some s => s ≠ ""

/-- JavaScript `a || b` on two string-or-null values: yields `a` when `a` is
truthy and `b` otherwise. -/
def jsOr (a b : Option String) : Option String :=
  if jsTruthy a then a else b

/-- JavaScript `s || null` on a plain string: the empty string becomes null. -/
def jsOrNull (s : String) : Option String :=
  if s = "" then none else some s

/-- Split of a character list at every occurrence of a separator, keeping
empty segments, as JavaScript `split` with a one-character separator does. -/
def splitCharList (sep : Char) : List Char → List (List Char)
  | [] => [[]]
  | c :: cs =>
    match splitCharList sep cs with
    | [] => [[]]
    | seg :: rest =>
      if c = sep then [] :: seg :: rest else (c :: seg) :: rest

/-- JavaScript `s.split(sep)` for a one-character separator. -/
def splitOnChar (sep : Char) (s : String) : List String :=
  (splitCharList sep s.data).map String.mk

/-- JavaScript `s.trim()`: strip leading and trailing whitespace. -/
def jsTrim (s : String) : String :=
  String.mk
    (((s.data.dropWhile Char.isWhitespace).reverse.dropWhile
      Char.isWhitespace).reverse)

/-- Value of a digit list read in base ten. -/
def digitsVal (l : List Char) : Nat :=
  l.foldl (fun n c => n * 10 + (c.toNat - 48)) 0

/-- Row of the `tasks` table, with the columns the scheduling endpoint and
the task dialogs read or write.  `scheduled_date`, `scheduled_time`,
`recurrence_end_date` and `deleted_at` are nullable. -/
structure Task where
  id : Nat
  user_id : Nat
  title : String
  description : String
  duration_minutes : Nat
  priority : String
  tags : List String
  status : String
  scheduled_date : Option String
  scheduled_time : Option String
  commute_minutes : Nat
  recurrence_pattern : String
  recurrence_days : List String
  recurrence_end_date : Option String
  deleted_at : Option String
deriving Repr, DecidableEq

/-- Row of the `calendar_events` table as read by the scheduling endpoint:
`start_time` and `end_time` are ISO timestamps. -/
structure CalendarEvent where
  id : Nat
  user_id : Nat
  title : String
  start_time : String
  end_time : String
deriving Repr, DecidableEq

/-- Task fetch of the scheduling endpoint
(generate-suggestions/index.ts lines 67-73): all tasks of the user whose
`deleted_at` is null and whose status is `pending` or `scheduled`.  The
`order by priority` clause only permutes the result and is not modelled. -/
def fetchActiveTasks (db : List Task) (uid : Nat) : List Task :=
  db.filter fun t =>
    t.user_id == uid && t.deleted_at == none &&
      (t.status == "pending" || t.status == "scheduled")

/-- Predicate of generate-suggestions/index.ts line 83: a task is
unscheduled when it is missing its date or its time
(`!t.scheduled_date || !t.scheduled_time`, with JavaScript truthiness). -/
def isUnscheduled (t : Task) : Bool :=
  !(jsTruthy t.scheduled_date) || !(jsTruthy t.scheduled_time)

/-- Unscheduled tasks of a user as computed on line 83 of the endpoint. -/
def unscheduledTasks (db : List Task) (uid : Nat) : List Task :=
  (fetchActiveTasks db uid).filter isUnscheduled

/-- Already-scheduled tasks of a user as computed on line 86 of the
endpoint: both date and time present (truthy). -/
def scheduledTasks (db : List Task) (uid : Nat) : List Task :=
  (fetchActiveTasks db uid).filter fun t =>
    jsTruthy t.scheduled_date && jsTruthy t.scheduled_time

/-- One entry of the model reply accepted by the endpoint: a task id, an
ISO start timestamp, and a duration.  The confidence score and the
free-text reasoning are dropped: they are only copied into the
`suggestions` table and never influence a task row. -/
structure Suggestion where
  task_id : Nat
  suggested_start : String
  duration_minutes : Nat
deriving Repr, DecidableEq

/-- Date part stored by the endpoint: index.ts line 265 parses the
suggested start with the Date constructor, reformats it with toISOString
and keeps the segment before the T separator.  For a suggested start
already in normalized UTC form `YYYY-MM-DDTHH:MM:SSZ` with in-range
fields, the JavaScript parse-and-reformat round trip reproduces the same
digits, so the stored date is the first ten characters. -/
def isoDatePart (s : String) : String :=
  String.mk (s.data.take 10)

/-- Time part stored by the endpoint: index.ts line 266 keeps the first
eight characters after the T separator of the reformatted timestamp; for
a normalized UTC timestamp these are the eight characters after position
11, `HH:MM:SS`. -/
def isoTimePart (s : String) : String :=
  String.mk ((s.data.drop 11).take 8)

/-- Task row update performed for one accepted suggestion (index.ts lines
268-275): set the stored date and time from the suggested start and mark
the row scheduled. -/
def updateTask (t : Task) (s : Suggestion) : Task :=
  { t with
    scheduled_date := some (isoDatePart s.suggested_start)
    scheduled_time := some (isoTimePart s.suggested_start)
    status := "scheduled" }

/-- One iteration of the update loop of the endpoint (index.ts lines
256-276): a suggestion whose task id is found in the unscheduled list
updates the task row with that id, setting only `scheduled_date`,
`scheduled_time` and `status`; any other suggestion is skipped without a
write.  The unscheduled list is the one computed once before the loop. -/
def applySuggestion (unsched : List Task) (db : List Task) (s : Suggestion) :
    List Task :=
  if (unsched.find? fun t => t.id == s.task_id).isSome then
    db.map fun t => if t.id == s.task_id then updateTask t s else t
  else db

/-- Full update loop of the endpoint over the model suggestions, with the
unscheduled list fixed from the database state at fetch time. -/
def runUpdates (db : List Task) (uid : Nat) (suggs : List Suggestion) :
    List Task :=
  suggs.foldl (applySuggestion (unscheduledTasks db uid)) db

/-- Body of a JSON response of the edge functions, by shape: a plain
message, the scheduling success message with its count, the calendar sync
success payload, or the `\x7b error: ... \x7d` object produced by a catch
block. -/
inductive RespBody where
  | messageOnly (message : String)
  | scheduled (count : Nat)
  | syncResult (synced : Nat)
  | errorObj (error : String)
deriving Repr, DecidableEq

/-- HTTP response of an edge function: status code and JSON body. -/
structure HttpResponse where
  status : Nat
  body : RespBody
deriving Repr, DecidableEq

/-- Result of `JSON.parse` on the tool-call arguments (index.ts line 220):
the parse can throw, or produce an object whose `suggestions` field is
absent or is an array. -/
inductive ParseOutcome where
  | parseError
  | parsed (suggestions : Option (List Suggestion))
deriving Repr, DecidableEq

/-- Model reply as inspected on index.ts lines 217-224: either the message
carries no (or an empty) `tool_calls` array, or its first tool call carries
an arguments string with the given parse outcome. -/
inductive AiMessage where
  | noToolCalls
  | toolCall (args : ParseOutcome)
deriving Repr, DecidableEq

/-- Suggestion extraction of index.ts lines 214-228: no tool call, a parse
error, or a missing `suggestions` field all leave the suggestion list
empty; otherwise the parsed array is used. -/
def extractSuggestions : AiMessage → List Suggestion
  | .noToolCalls => []
  | .toolCall .parseError => []
  | .toolCall (.parsed none) => []
  | .toolCall (.parsed (some l)) => l

/-- Body of the generate-suggestions handler (index.ts lines 39-287), after
client construction: the throw sites are the missing authorization header
(line 47), the invalid user token (line 54) and the failed model call
(line 207); the early returns of lines 75-94 answer 200 without touching
any row; otherwise the suggestions extracted from the reply drive the
update loop and the response reports the number of suggestions inserted. -/
def genBody (auth : Option String) (userOk : Bool) (db : List Task)
    (uid : Nat) (ai : Except String AiMessage) :
    Except String (List Task × HttpResponse) :=
  if auth = none then
    .error "No authorization header"
  else if userOk = false then
    .error "Invalid user token"
  else if (fetchActiveTasks db uid).isEmpty then
    .ok (db, ⟨200, .messageOnly "No tasks to schedule"⟩)
  else if (unscheduledTasks db uid).isEmpty then
    .ok (db, ⟨200, .messageOnly "No unscheduled tasks to place"⟩)
  else
    match ai with
    | .error statusText => .error ("AI API error: " ++ statusText)
    | .ok reply =>
      .ok (runUpdates db uid (extractSuggestions reply),
        ⟨200, .scheduled (extractSuggestions reply).length⟩)

/-- Complete generate-suggestions handler: the outermost try/catch
(index.ts lines 289-296) turns any thrown error into a 500 response with a
JSON error object, leaving the database untouched. -/
def genEndpoint (auth : Option String) (userOk : Bool) (db : List Task)
    (uid : Nat) (ai : Except String AiMessage) : List Task × HttpResponse :=
  match genBody auth userOk db uid ai with
  | .ok res => res
  | .error e => (db, ⟨500, .errorObj e⟩)

/-- Start (or end) field of a Google Calendar API event: an all-day event
carries `date`, a timed event carries `dateTime`; either may be absent. -/
structure GStart where
  dateTime : Option String
  date : Option String
deriving Repr, DecidableEq

/-- Event item returned by the Google Calendar API, with the fields the
sync handler reads.  The `end` field is named `end_` because `end` is
reserved in Lean. -/
structure GEvent where
  id : String
  summary : Option String
  start : Option GStart
  end_ : Option GStart
deriving Repr, DecidableEq

/-- Filter of sync-google-calendar/index.ts lines 130-135: an event is kept
when `event.start` exists, `event.start.dateTime || event.start.date` is
truthy, and its id is not already stored. -/
def validStart (e : GEvent) : Bool :=
  match e.start with
  | none => false
  | some st => jsTruthy st.dateTime || jsTruthy st.date

/-- Row of the `calendar_events` table built on lines 136-149 of the sync
handler (the metadata JSON column is not modelled). -/
structure CalendarRow where
  user_id : Nat
  provider_event_id : String
  title : String
  start_time : Option String
  end_time : Option String
deriving Repr, DecidableEq

/-- Events the sync inserts: those with a usable start whose id is not in
the stored provider ids (lines 130-135). -/
def newEventsOf (stored : List String) (events : List GEvent) : List GEvent :=
  events.filter fun e => validStart e && !(stored.contains e.id)

/-- Mapping of one kept event to its database row (lines 136-149).  Reading
`event.end.dateTime` when `event.end` is absent throws a TypeError in
JavaScript, modelled as the error case. -/
def buildRow (uid : Nat) (e : GEvent) : Except Unit CalendarRow :=
  match e.end_ with
  | none => .error ()
  | some en =>
    .ok
      { user_id := uid
        provider_event_id := e.id
        title := if jsTruthy e.summary then e.summary.getD "" else "Untitled Event"
        start_time := jsOr ((e.start.getD ⟨none, none⟩).dateTime)
          ((e.start.getD ⟨none, none⟩).date)
        end_time := jsOr en.dateTime en.date }

/-- Row construction over the whole kept list, aborting (like the thrown
TypeError aborts the `.map` callback and the handler) at the first event it
cannot map. -/
def buildRows (uid : Nat) : List GEvent → Except Unit (List CalendarRow)
  | [] => .ok []
  | e :: es =>
    match buildRow uid e, buildRows uid es with
    | .ok r, .ok rs => .ok (r :: rs)
    | _, _ => .error ()

/-- Provider ids the sync run inserts for the user: the ids of the kept
events when the row construction succeeds, and nothing when the handler
throws before the insert. -/
def syncInsertedIds (stored : List String) (events : List GEvent) (uid : Nat) :
    List String :=
  match buildRows uid (newEventsOf stored events) with
  | .error _ => []
  | .ok rows => rows.map CalendarRow.provider_event_id

/-- Stored provider ids after a sync run over an event list (lines
121-161): the previously stored ids plus the inserted ones. -/
def syncStored (stored : List String) (events : List GEvent) (uid : Nat) :
    List String :=
  stored ++ syncInsertedIds stored events uid

/-- Synced count the handler reports on success (lines 169-178:
`newEvents.length`), or none when the run threw before responding. -/
def syncCount (stored : List String) (events : List GEvent) (uid : Nat) :
    Option Nat :=
  match buildRows uid (newEventsOf stored events) with
  | .error _ => none
  | .ok rows => some rows.length

/-- Body of the sync-google-calendar handler as far as the claims need it:
the throw sites before the calendar fetch (unauthorized, missing profile,
calendar not connected, failed token refresh, failed calendar fetch) are
the error argument; afterwards the run inserts the new events and reports
their count, itself throwing on an event without an end field. -/
def syncBody (pre : Option String) (stored : List String)
    (events : List GEvent) (uid : Nat) :
    Except String (List String × HttpResponse) :=
  match pre with
  | some e => .error e
  | none =>
    match buildRows uid (newEventsOf stored events) with
    | .error _ => .error "TypeError"
    | .ok rows =>
      .ok (stored ++ rows.map CalendarRow.provider_event_id,
        ⟨200, .syncResult rows.length⟩)

/-- Complete sync handler: the outermost try/catch (lines 180-189) turns
any thrown error into a 400 response with a JSON error object, leaving the
stored ids untouched. -/
def syncEndpoint (pre : Option String) (stored : List String)
    (events : List GEvent) (uid : Nat) : List String × HttpResponse :=
  match syncBody pre stored events uid with
  | .ok res => res
  | .error e => (stored, ⟨400, .errorObj e⟩)

/-- Outbound fetch count of one sync-google-calendar request: the handler
calls `refreshAccessToken` (one fetch, lines 9-34) exactly when the stored
access token is missing or expired (line 77), aborting on a failed refresh
(line 27), and then performs the single calendar fetch (line 101). -/
def googleSyncFetchCount (needRefresh refreshOk : Bool) : Nat :=
  if needRefresh then (if refreshOk then 2 else 1) else 1

/-- Outbound fetch count of one Canvas sync request (src/unnamed/part_010):
one courses fetch (line 96), aborting if it fails (line 105), then one
assignments fetch per returned course (lines 113-121), each issued once
with no retry whatever its status. -/
def canvasSyncFetchCount (courseCount : Nat) (coursesOk : Bool) : Nat :=
  if coursesOk then 1 + courseCount else 1

/-- Outbound fetch count of one generate-suggestions request: the single
model call of index.ts line 124. -/
def generateSuggestionsFetchCount : Nat := 1

/-- Downtime window of the user profile as the task-creation dialog
receives it (TaskCreationDialog.tsx lines 16-20); the whole profile may be
null. -/
structure DowntimeProfile where
  downtime_start : Option String
  downtime_end : Option String
deriving Repr, DecidableEq

/-- JavaScript `Number` on a time component produced by splitting the time
on colons: the empty string is 0, a digit string is its value, and
anything else is NaN, modelled as none (every comparison with NaN is
false). -/
def jsNumber (s : String) : Option Nat :=
  if s.data = [] then some 0
  else if s.data.all Char.isDigit then some (digitsVal s.data)
  else none

/-- Minutes-of-day computed on TaskCreationDialog.tsx lines 55-61:
`parts[0] * 60 + parts[1]` after splitting on `:`; a missing or
non-numeric component makes the result NaN (none). -/
def minutesOfDay (s : String) : Option Nat :=
  match splitOnChar ':' s with
  | h :: m :: _ =>
    match jsNumber h, jsNumber m with
    | some hv, some mv => some (hv * 60 + mv)
    | _, _ => none
  | _ => none

/-- Downtime membership check of TaskCreationDialog.tsx lines 53-64:
false when the profile or either bound is missing or the time is empty,
and otherwise `start <= t && t < end` on minutes-of-day, with NaN
comparisons false. -/
def isTimeInDowntime (profile : Option DowntimeProfile) (time : String) :
    Bool :=
  match profile with
  | none => false
  | some p =>
    if !(jsTruthy p.downtime_start) || !(jsTruthy p.downtime_end) ||
        time == "" then
      false
    else
      match minutesOfDay time, minutesOfDay (p.downtime_start.getD ""),
          minutesOfDay (p.downtime_end.getD "") with
      | some t, some s, some e => decide (s ≤ t ∧ t < e)
      | _, _, _ => false

/-- Form state of the task-creation dialog (TaskCreationDialog.tsx lines
22-34): every field is a plain string or number as held by the inputs. -/
structure NewTask where
  title : String
  description : String
  duration_minutes : Nat
  priority : String
  tags : String
  scheduled_date : String
  scheduled_time : String
  commute_minutes : Nat
  recurrence_pattern : String
  recurrence_days : List String
  recurrence_end_date : String
deriving Repr, DecidableEq

/-- Tags transformation of the insert (TaskCreationDialog.tsx line 93):
split on commas, trim each entry, drop the falsy (empty) ones. -/
def splitTags (s : String) : List String :=
  ((splitOnChar ',' s).map jsTrim).filter fun t => t ≠ ""

/-- Result of pressing Create Task: the guard that fired, or a successful
insert. -/
inductive CreateOutcome where
  | created
  | titleError
  | dateError
  | downtimeWarning
deriving Repr, DecidableEq

/-- Row inserted by the dialog (TaskCreationDialog.tsx lines 87-101); the
database assigns the id, passed here as `newId`. -/
def insertedTask (uid newId : Nat) (nt : NewTask) : Task :=
  { id := newId
    user_id := uid
    title := nt.title
    description := nt.description
    duration_minutes := nt.duration_minutes
    priority := nt.priority
    tags := splitTags nt.tags
    status := "pending"
    scheduled_date := jsOrNull nt.scheduled_date
    scheduled_time := jsOrNull nt.scheduled_time
    commute_minutes := nt.commute_minutes
    recurrence_pattern := nt.recurrence_pattern
    recurrence_days := nt.recurrence_days
    recurrence_end_date := jsOrNull nt.recurrence_end_date
    deleted_at := none }

/-- Task-creation flow of handleCreateTask (TaskCreationDialog.tsx lines
66-103): empty trimmed title and time-without-date return without an
insert; without `force`, a truthy time inside the downtime window opens
the warning dialog instead of inserting; otherwise the row is appended. -/
def handleCreateTask (db : List Task) (uid newId : Nat) (nt : NewTask)
    (force : Bool) (profile : Option DowntimeProfile) :
    List Task × CreateOutcome :=
  if jsTrim nt.title = "" then
    (db, .titleError)
  else if nt.scheduled_time ≠ "" && nt.scheduled_date = "" then
    (db, .dateError)
  else if !force && nt.scheduled_time ≠ "" &&
      isTimeInDowntime profile nt.scheduled_time then
    (db, .downtimeWarning)
  else
    (db ++ [insertedTask uid newId nt], .created)

/-- Task fetch of the schedule page (src/unnamed/part_014 lines 61-83):
all task rows of the user; the ordering by creation date only permutes the
result and is not modelled. -/
def fetchTasks (db : List Task) (uid : Nat) : List Task :=
  db.filter fun t => t.user_id == uid

/-- Test of the date-only regex of ensureFullISO
(src/unnamed/part_007 line 268): ten characters, digits everywhere except
dashes at positions 4 and 7. -/
def matchesDateOnly (s : String) : Bool :=
  s.data.length == 10 &&
    ([0, 1, 2, 3, 5, 6, 8, 9].all fun i =>
      ((s.data.get? i).map Char.isDigit).getD false) &&
    s.data.get? 4 == some '-' && s.data.get? 7 == some '-'

/-- First alternative of the timezone regex of ensureFullISO (line 273):
the unanchored character class `[zZ]` matches a z anywhere in the string. -/
def hasZChar (s : String) : Bool :=
  s.data.any fun c => c == 'z' || c == 'Z'

/-- Second alternative of the timezone regex (line 273): the string ends
with a numeric offset `+HH:MM` or `-HH:MM`. -/
def endsWithOffset (s : String) : Bool :=
  match s.data.reverse with
  | m2 :: m1 :: ':' :: h2 :: h1 :: sign :: _ =>
    (sign == '+' || sign == '-') && m2.isDigit && m1.isDigit &&
      h2.isDigit && h1.isDigit
  | _ => false

/-- Helper ensureFullISO of src/unnamed/part_007 lines 266-278: a date-only
suggested start gets `T09:00:00Z` appended, a start matching neither
alternative of the timezone regex gets `Z` appended, every other start is
returned unchanged.  The profile timezone parameter is accepted and, as in
the source, never used. -/
def ensureFullISO (suggested : String) (profileTimezone : String) : String :=
  if matchesDateOnly suggested then suggested ++ "T09:00:00Z"
  else if !(hasZChar suggested || endsWithOffset suggested) then
    suggested ++ "Z"
  else suggested

/-- Digits of a field of a normalized timestamp, 0 when non-numeric. -/
def parseNatD (s : String) : Nat :=
  if s.data ≠ [] && s.data.all Char.isDigit then digitsVal s.data else 0

/-- Linearized minute index of a normalized UTC timestamp
`YYYY-MM-DDTHH:MM:SSZ`, on an idealized calendar of 31-day months: the
index is strictly increasing in the date-time fields and minute-exact
within a month, which is what the interval-disjointness statements need. -/
def tsMinutes (s : String) : Nat :=
  let y := parseNatD (String.mk (s.data.take 4))
  let mo := parseNatD (String.mk ((s.data.drop 5).take 2))
  let d := parseNatD (String.mk ((s.data.drop 8).take 2))
  let h := parseNatD (String.mk ((s.data.drop 11).take 2))
  let mi := parseNatD (String.mk ((s.data.drop 14).take 2))
  (((y * 12 + mo) * 31 + d) * 1440) + h * 60 + mi

/-- Occupied interval of a scheduled task row, as the half-open span
`[start, start + duration_minutes)` of its stored date and time. -/
def taskInterval (t : Task) : Nat × Nat :=
  let start := tsMinutes
    ((t.scheduled_date.getD "") ++ "T" ++ (t.scheduled_time.getD "") ++ "Z")
  (start, start + t.duration_minutes)

/-- Occupied interval of a calendar event row. -/
def eventInterval (e : CalendarEvent) : Nat × Nat :=
  (tsMinutes e.start_time, tsMinutes e.end_time)

/-- Disjointness of two half-open intervals. -/
def intervalsDisjoint (a b : Nat × Nat) : Prop :=
  a.2 ≤ b.1 ∨ b.2 ≤ a.1

instance instDecidableIntervalsDisjoint (a b : Nat × Nat) :
    Decidable (intervalsDisjoint a b) := by
  unfold intervalsDisjoint
  infer_instance

/-- Rows a scheduling run rewrites: the positions at which the new
database state differs from the old one, taken on the new side. -/
def updatedRows (db : List Task) (uid : Nat) (suggs : List Suggestion) :
    List Task :=
  ((db.zip (runUpdates db uid suggs)).filter fun p => p.2 ≠ p.1).map Prod.snd

/-- Non-overlap property claimed of a scheduling run: the intervals of the
tasks the run writes are pairwise disjoint, disjoint from every
already-scheduled task of the user, and disjoint from every calendar event
of the user. -/
def runNonOverlapping (db : List Task) (events : List CalendarEvent)
    (uid : Nat) (suggs : List Suggestion) : Prop :=
  let w := (updatedRows db uid suggs).map taskInterval
  w.Pairwise intervalsDisjoint ∧
    (∀ a ∈ w, ∀ t ∈ scheduledTasks db uid,
      intervalsDisjoint a (taskInterval t)) ∧
    (∀ a ∈ w, ∀ e ∈ events.filter (fun e => e.user_id == uid),
      intervalsDisjoint a (eventInterval e))

/-- Completeness property claimed of a scheduling run: after the endpoint
processed the model reply, the user has no unscheduled active task left. -/
def everyUnscheduledEndsScheduled (db : List Task) (uid : Nat)
    (reply : AiMessage) : Prop :=
  unscheduledTasks
    ((genEndpoint (some "token") true db uid (.ok reply)).1) uid = []

instance instDecidableRunNonOverlapping (db : List Task)
    (events : List CalendarEvent) (uid : Nat) (suggs : List Suggestion) :
    Decidable (runNonOverlapping db events uid suggs) := by
  unfold runNonOverlapping
  infer_instance

instance instDecidableEveryUnscheduledEndsScheduled (db : List Task)
    (uid : Nat) (reply : AiMessage) :
    Decidable (everyUnscheduledEndsScheduled db uid reply) := by
  unfold everyUnscheduledEndsScheduled
  infer_instance

/-- Fields of a task row other than `scheduled_date`, `scheduled_time` and
`status`: the frame a scheduling run must not touch. -/
def onlyScheduleFieldsChanged (t u : Task) : Prop :=
  u.id = t.id ∧ u.user_id = t.user_id ∧ u.title = t.title ∧
    u.description = t.description ∧
    u.duration_minutes = t.duration_minutes ∧ u.priority = t.priority ∧
    u.tags = t.tags ∧ u.commute_minutes = t.commute_minutes ∧
    u.recurrence_pattern = t.recurrence_pattern ∧
    u.recurrence_days = t.recurrence_days ∧
    u.recurrence_end_date = t.recurrence_end_date ∧
    u.deleted_at = t.deleted_at

/-- Round-trip property claimed of the task-creation flow, with the tags
transformation exactly as the claim words it: split on commas and trimmed,
without dropping empty entries. -/
def createReadBackClaim (db : List Task) (uid newId : Nat) (nt : NewTask)
    (profile : Option DowntimeProfile) (force : Bool) : Prop :=
  ∃ t ∈ fetchTasks (handleCreateTask db uid newId nt force profile).1 uid,
    t.title = nt.title ∧ t.description = nt.description ∧
    t.duration_minutes = nt.duration_minutes ∧ t.priority = nt.priority ∧
    t.tags = (splitOnChar ',' nt.tags).map jsTrim ∧
    t.scheduled_date = jsOrNull nt.scheduled_date ∧
    t.scheduled_time = jsOrNull nt.scheduled_time ∧
    t.commute_minutes = nt.commute_minutes ∧
    t.recurrence_pattern = nt.recurrence_pattern ∧
    t.recurrence_days = nt.recurrence_days ∧
    t.recurrence_end_date = jsOrNull nt.recurrence_end_date

instance instDecidableCreateReadBackClaim (db : List Task) (uid newId : Nat)
    (nt : NewTask) (profile : Option DowntimeProfile) (force : Bool) :
    Decidable (createReadBackClaim db uid newId nt profile force) := by
  unfold createReadBackClaim
  infer_instance

/-- Per-run property claimed of the calendar sync at one input: inserts
only unseen ids, a second run over the same list inserts nothing, and the
reported count equals the number of events whose id was not already
stored, counted as the claim words it, without the validity filter. -/
def syncIdempotenceClaim (stored : List String) (events : List GEvent)
    (uid : Nat) : Prop :=
  (∀ pid ∈ syncInsertedIds stored events uid, pid ∉ stored) ∧
    syncInsertedIds (syncStored stored events uid) events uid = [] ∧
    syncCount stored events uid =
      some ((events.filter fun e => !(stored.contains e.id)).length)

instance instDecidableSyncIdempotenceClaim (stored : List String)
    (events : List GEvent) (uid : Nat) :
    Decidable (syncIdempotenceClaim stored events uid) := by
  unfold syncIdempotenceClaim
  infer_instance

/-- Template task row used by the concrete scenarios below. -/
def baseTask : Task :=
  { id := 0
    user_id := 1
    title := "task"
    description := ""
    duration_minutes := 60
    priority := "medium"
    tags := []
    status := "pending"
    scheduled_date := none
    scheduled_time := none
    commute_minutes := 0
    recurrence_pattern := "once"
    recurrence_days := []
    recurrence_end_date := none
    deleted_at := none }

/-- Two unscheduled pending tasks of user 1. -/
def exDb : List Task :=
  [{ baseTask with id := 1, title := "write report" },
   { baseTask with id := 2, title := "review notes" }]

/-- Model reply assigning the two tasks slots thirty minutes apart, so the
two one-hour assignments overlap. -/
def exOverlapSuggs : List Suggestion :=
  [⟨1, "2026-10-13T09:00:00Z", 60⟩, ⟨2, "2026-10-13T09:30:00Z", 60⟩]

/-- Model reply that only names the first of the two unscheduled tasks. -/
def exOmitSuggs : List Suggestion :=
  [⟨1, "2026-10-13T09:00:00Z", 60⟩]

/-- Tool-call reply carrying the omitting suggestion list. -/
def exOmitReply : AiMessage :=
  .toolCall (.parsed (some exOmitSuggs))

/-- Google Calendar event that carries no start field at all. -/
def evNoStart : GEvent :=
  { id := "ev-1", summary := some "Team sync", start := none, end_ := none }

/-- Well-formed timed Google Calendar event. -/
def evGood : GEvent :=
  { id := "ev-2"
    summary := some "Dentist"
    start := some { dateTime := some "2026-10-14T10:00:00Z", date := none }
    end_ := some { dateTime := some "2026-10-14T11:00:00Z", date := none } }

/-- Profile with an overnight downtime window: start later in the day than
the end. -/
def exOvernightProfile : DowntimeProfile :=
  { downtime_start := some "22:00:00", downtime_end := some "06:00:00" }

/-- Dialog state with a double comma inside the tags field. -/
def exTagsTask : NewTask :=
  { title := "plan trip"
    description := "book the hotel"
    duration_minutes := 30
    priority := "low"
    tags := "work,,home"
    scheduled_date := ""
    scheduled_time := ""
    commute_minutes := 0
    recurrence_pattern := "once"
    recurrence_days := []
    recurrence_end_date := "" }

lemma updateTask_id (t : Task) (s : Suggestion) : (updateTask t s).id = t.id :=
  rfl

lemma applySuggestion_length (u db : List Task) (s : Suggestion) :
    (applySuggestion u db s).length = db.length := by
  unfold applySuggestion
  split
  · simp
  · rfl

lemma foldl_applySuggestion_length (u : List Task) :
    ∀ (suggs : List Suggestion) (cur : List Task),
      (suggs.foldl (applySuggestion u) cur).length = cur.length
  | [], _ => rfl
  | s :: ss, cur => by
    simp only [List.foldl_cons]
    rw [foldl_applySuggestion_length u ss (applySuggestion u cur s),
      applySuggestion_length]

lemma runUpdates_length (db : List Task) (uid : Nat)
    (suggs : List Suggestion) : (runUpdates db uid suggs).length = db.length :=
  foldl_applySuggestion_length _ suggs db

lemma applySuggestion_map_id (u db : List Task) (s : Suggestion) :
    (applySuggestion u db s).map Task.id = db.map Task.id := by
  unfold applySuggestion
  split
  · rw [List.map_map]
    apply List.map_congr_left
    intro t _
    by_cases h : t.id = s.task_id
    · simp [h, updateTask]
    · simp [h]
  · rfl

lemma foldl_applySuggestion_map_id (u : List Task) :
    ∀ (suggs : List Suggestion) (cur : List Task),
      (suggs.foldl (applySuggestion u) cur).map Task.id = cur.map Task.id
  | [], _ => rfl
  | s :: ss, cur => by
    simp only [List.foldl_cons]
    rw [foldl_applySuggestion_map_id u ss (applySuggestion u cur s),
      applySuggestion_map_id]

lemma runUpdates_map_id (db : List Task) (uid : Nat)
    (suggs : List Suggestion) :
    (runUpdates db uid suggs).map Task.id = db.map Task.id :=
  foldl_applySuggestion_map_id _ suggs db

lemma applySuggestion_getElem?_untouched (u db : List Task) (s : Suggestion)
    (i : Nat) (h : ∀ t, db[i]? = some t → s.task_id ≠ t.id) :
    (applySuggestion u db s)[i]? = db[i]? := by
  unfold applySuggestion
  split
  · rw [List.getElem?_map]
    cases hdb : db[i]? with
    | none => rfl
    | some t =>
      have hne : (t.id == s.task_id) = false :=
        beq_eq_false_iff_ne.mpr fun e => h t hdb e.symm
      simp only [hdb, Option.map_some']
      rw [hne]
      simp
  · rfl

lemma foldl_applySuggestion_getElem?_untouched (u : List Task) :
    ∀ (suggs : List Suggestion) (cur : List Task) (i : Nat),
      (∀ s ∈ suggs, ∀ t, cur[i]? = some t → s.task_id ≠ t.id) →
      (suggs.foldl (applySuggestion u) cur)[i]? = cur[i]?
  | [], _, _, _ => rfl
  | s :: ss, cur, i, h => by
    simp only [List.foldl_cons]
    have hstep : (applySuggestion u cur s)[i]? = cur[i]? :=
      applySuggestion_getElem?_untouched u cur s i
        (h s (List.mem_cons_self s ss))
    rw [foldl_applySuggestion_getElem?_untouched u ss
        (applySuggestion u cur s) i
        (fun s2 hs2 t ht => h s2 (List.mem_cons_of_mem s hs2) t
          (hstep ▸ ht)),
      hstep]

lemma onlyScheduleFieldsChanged_refl (t : Task) :
    onlyScheduleFieldsChanged t t :=
  ⟨rfl, rfl, rfl, rfl, rfl, rfl, rfl, rfl, rfl, rfl, rfl, rfl⟩

lemma onlyScheduleFieldsChanged_trans {a b c : Task}
    (h1 : onlyScheduleFieldsChanged a b) (h2 : onlyScheduleFieldsChanged b c) :
    onlyScheduleFieldsChanged a c := by
  obtain ⟨e1, e2, e3, e4, e5, e6, e7, e8, e9, e10, e11, e12⟩ := h1
  obtain ⟨f1, f2, f3, f4, f5, f6, f7, f8, f9, f10, f11, f12⟩ := h2
  exact ⟨f1.trans e1, f2.trans e2, f3.trans e3, f4.trans e4, f5.trans e5,
    f6.trans e6, f7.trans e7, f8.trans e8, f9.trans e9, f10.trans e10,
    f11.trans e11, f12.trans e12⟩

lemma onlyScheduleFieldsChanged_updateTask (t : Task) (s : Suggestion) :
    onlyScheduleFieldsChanged t (updateTask t s) :=
  ⟨rfl, rfl, rfl, rfl, rfl, rfl, rfl, rfl, rfl, rfl, rfl, rfl⟩

lemma buildRow_ok_id (uid : Nat) (e : GEvent) (r : CalendarRow)
    (h : buildRow uid e = .ok r) : r.provider_event_id = e.id := by
  unfold buildRow at h
  cases he : e.end_ with
  | none => rw [he] at h; exact absurd h (by simp)
  | some en => rw [he] at h; cases h; rfl

lemma buildRows_ok_map (uid : Nat) :
    ∀ (l : List GEvent) (rows : List CalendarRow),
      buildRows uid l = .ok rows →
      rows.map CalendarRow.provider_event_id = l.map GEvent.id
  | [], rows, h => by cases h; rfl
  | e :: es, rows, h => by
    unfold buildRows at h
    cases hr : buildRow uid e with
    | error u => rw [hr] at h; exact absurd h (by simp)
    | ok r =>
      cases hrs : buildRows uid es with
      | error u => rw [hr, hrs] at h; exact absurd h (by simp)
      | ok rs =>
        rw [hr, hrs] at h
        cases h
        simp only [List.map_cons]
        rw [buildRow_ok_id uid e r hr, buildRows_ok_map uid es rs hrs]

lemma mem_db_of_mem_unscheduledTasks {db : List Task} {uid : Nat} {t : Task}
    (h : t ∈ unscheduledTasks db uid) : t ∈ db := by
  unfold unscheduledTasks fetchActiveTasks at h
  exact List.mem_of_mem_filter (List.mem_of_mem_filter h)

lemma mem_of_getElem?_eq_some {α : Type} {l : List α} {i : Nat} {a : α}
    (h : l[i]? = some a) : a ∈ l := by
  obtain ⟨hlt, he⟩ := List.getElem?_eq_some.mp h
  exact he ▸ l.getElem_mem hlt

lemma frame_foldl (db : List Task) (uid : Nat)
    (hinj : ∀ t ∈ db, ∀ w ∈ db, t.id = w.id → t = w)
    (suggs : List Suggestion) :
    ∀ cur : List Task,
      (∀ j : Nat,
        cur[j]? = db[j]? ∨
          ∃ t u, db[j]? = some t ∧ cur[j]? = some u ∧
            t ∈ unscheduledTasks db uid ∧ onlyScheduleFieldsChanged t u) →
      ∀ i : Nat,
        (suggs.foldl (applySuggestion (unscheduledTasks db uid)) cur)[i]? =
            db[i]? ∨
          ∃ t u, db[i]? = some t ∧
            (suggs.foldl (applySuggestion (unscheduledTasks db uid))
              cur)[i]? = some u ∧
            t ∈ unscheduledTasks db uid ∧ onlyScheduleFieldsChanged t u := by
  induction suggs with
  | nil => exact fun cur hcur i => hcur i
  | cons s ss ih =>
    intro cur hcur i
    simp only [List.foldl_cons]
    refine ih (applySuggestion (unscheduledTasks db uid) cur s) ?_ i
    intro j
    by_cases hguard :
      ((unscheduledTasks db uid).find? fun w => w.id == s.task_id).isSome =
        true
    · obtain ⟨w, hw⟩ := Option.isSome_iff_exists.mp hguard
      have hwp : (w.id == s.task_id) = true := by
        simpa using List.find?_some hw
      have hwmem : w ∈ unscheduledTasks db uid := List.mem_of_find?_eq_some hw
      have happ : applySuggestion (unscheduledTasks db uid) cur s =
          cur.map fun t => if t.id == s.task_id then updateTask t s else t := by
        unfold applySuggestion
        rw [if_pos hguard]
      rw [happ, List.getElem?_map]
      cases hc : cur[j]? with
      | none =>
        rcases hcur j with h | ⟨t, u, _, hcu, _, _⟩
        · rw [hc] at h
          left
          simp [← h]
        · rw [hcu] at hc
          exact absurd hc (by simp)
      | some u =>
        simp only [Option.map_some']
        by_cases hbeq : (u.id == s.task_id) = true
        · rw [if_pos hbeq]
          right
          rcases hcur j with h | ⟨t, u0, hdbj, hcu, htm, hosc⟩
          · have hdbj : db[j]? = some u := by rw [← h, hc]
            have humem : u ∈ db := mem_of_getElem?_eq_some hdbj
            have hwdb : w ∈ db := mem_db_of_mem_unscheduledTasks hwmem
            have heq : w = u := hinj w hwdb u humem (by
              rw [beq_iff_eq.mp hwp, beq_iff_eq.mp hbeq])
            exact ⟨u, updateTask u s, hdbj, rfl, heq ▸ hwmem,
              onlyScheduleFieldsChanged_updateTask u s⟩
          · have hu0 : u0 = u := by
              rw [hcu] at hc
              exact Option.some.inj hc
            exact ⟨t, updateTask u s, hdbj, rfl, htm,
              onlyScheduleFieldsChanged_trans (hu0 ▸ hosc)
                (onlyScheduleFieldsChanged_updateTask u s)⟩
        · rw [if_neg hbeq]
          rcases hcur j with h | ⟨t, u0, hdbj, hcu, htm, hosc⟩
          · left
            rw [← h, hc]
          · right
            have hu0 : u0 = u := by
              rw [hcu] at hc
              exact Option.some.inj hc
            exact ⟨t, u, hdbj, rfl, htm, hu0 ▸ hosc⟩
    · have hid : applySuggestion (unscheduledTasks db uid) cur s = cur := by
        unfold applySuggestion
        rw [if_neg hguard]
      rw [hid]
      exact hcur j

lemma foldl_filter_accepted (u : List Task) (suggs : List Suggestion) :
    ∀ cur : List Task,
      ((suggs.filter fun s =>
        (u.find? fun t => t.id == s.task_id).isSome).foldl
        (applySuggestion u) cur) = suggs.foldl (applySuggestion u) cur := by
  induction suggs with
  | nil => exact fun _ => rfl
  | cons s ss ih =>
    intro cur
    by_cases h : ((u.find? fun t => t.id == s.task_id).isSome) = true
    · rw [show (List.filter
          (fun s => (u.find? fun t => t.id == s.task_id).isSome) (s :: ss)) =
          s :: List.filter
            (fun s => (u.find? fun t => t.id == s.task_id).isSome) ss from by
        simp [List.filter_cons, h]]
      simp only [List.foldl_cons]
      exact ih (applySuggestion u cur s)
    · have hf : ((u.find? fun t => t.id == s.task_id).isSome) = false := by
        simpa using h
      have hid : applySuggestion u cur s = cur := by
        unfold applySuggestion
        rw [if_neg h]
      rw [show (List.filter
          (fun s => (u.find? fun t => t.id == s.task_id).isSome) (s :: ss)) =
          List.filter
            (fun s => (u.find? fun t => t.id == s.task_id).isSome) ss from by
        simp [List.filter_cons, hf]]
      simp only [List.foldl_cons]
      rw [hid]
      exact ih cur

lemma foldl_last_match (db : List Task) (uid : Nat) (t : Task)
    (ht : t ∈ unscheduledTasks db uid) (suggs : List Suggestion) :
    ∀ cur : List Task, cur.map Task.id = db.map Task.id →
      ∀ s : Suggestion,
        (suggs.filter fun s2 => s2.task_id == t.id).getLast? = some s →
        ∃ u ∈ suggs.foldl (applySuggestion (unscheduledTasks db uid)) cur,
          u.id = t.id ∧
          u.scheduled_date = some (isoDatePart s.suggested_start) ∧
          u.scheduled_time = some (isoTimePart s.suggested_start) ∧
          u.status = "scheduled" := by
  induction suggs using List.reverseRecOn with
  | nil =>
    intro cur _ s hs
    simp at hs
  | append_singleton l x ih =>
    intro cur hcur s hs
    rw [List.foldl_append]
    simp only [List.foldl_cons, List.foldl_nil]
    by_cases hx : (x.task_id == t.id) = true
    · have hfil : (l ++ [x]).filter (fun s2 => s2.task_id == t.id) =
          l.filter (fun s2 => s2.task_id == t.id) ++ [x] := by
        rw [List.filter_append]
        simp [List.filter_cons, hx]
      rw [hfil, List.getLast?_concat] at hs
      have hsx : s = x := (Option.some.inj hs).symm
      subst hsx
      have hmapid :
          (l.foldl (applySuggestion (unscheduledTasks db uid)) cur).map
            Task.id = db.map Task.id := by
        rw [foldl_applySuggestion_map_id, hcur]
      have htid : t.id ∈
          (l.foldl (applySuggestion (unscheduledTasks db uid)) cur).map
            Task.id := by
        rw [hmapid]
        exact List.mem_map_of_mem Task.id (mem_db_of_mem_unscheduledTasks ht)
      obtain ⟨u, humem, huid⟩ := List.mem_map.mp htid
      have hguard :
          ((unscheduledTasks db uid).find? fun w =>
            w.id == s.task_id).isSome = true := by
        rw [List.find?_isSome]
        exact ⟨t, ht, beq_iff_eq.mpr (beq_iff_eq.mp hx).symm⟩
      unfold applySuggestion
      rw [if_pos hguard]
      have hubeq : (u.id == s.task_id) = true :=
        beq_iff_eq.mpr (huid.trans (beq_iff_eq.mp hx).symm)
      refine ⟨updateTask u s,
        List.mem_map.mpr ⟨u, humem, by rw [if_pos hubeq]⟩, ?_⟩
      exact ⟨(updateTask_id u s).trans huid, rfl, rfl, rfl⟩
    · have hxf : (x.task_id == t.id) = false := by simpa using hx
      have hfil : (l ++ [x]).filter (fun s2 => s2.task_id == t.id) =
          l.filter (fun s2 => s2.task_id == t.id) := by
        rw [List.filter_append]
        simp [List.filter_cons, hxf]
      rw [hfil] at hs
      obtain ⟨u, humem, hprops⟩ := ih cur hcur s hs
      unfold applySuggestion
      split
      · have hune : (u.id == x.task_id) = false :=
          beq_eq_false_iff_ne.mpr (by
            rw [hprops.1]
            exact fun e => beq_eq_false_iff_ne.mp hxf e.symm)
        exact ⟨u, List.mem_map.mpr ⟨u, humem, by rw [if_neg (by simp [hune])]⟩,
          hprops⟩
      · exact ⟨u, humem, hprops⟩

/-- C4: for every model reply from which no suggestions can be extracted
(no tool call, missing suggestions field, or a parse error), the
scheduling endpoint leaves every task row unchanged and still answers
HTTP 200 reporting zero scheduled tasks, not an error response. -/
theorem c4_unparseable_reply_gives_200_zero (auth : String) (db : List Task)
    (uid : Nat) (reply : AiMessage)
    (hactive : (fetchActiveTasks db uid).isEmpty = false)
    (hunsched : (unscheduledTasks db uid).isEmpty = false)
    (hempty : extractSuggestions reply = []) :
    genEndpoint (some auth) true db uid (.ok reply) =
      (db, ⟨200, .scheduled 0⟩) := by
  unfold genEndpoint genBody
  simp [hactive, hunsched, hempty, runUpdates]

/-- Witness for C4 at a concrete database and a reply without tool calls. -/
theorem c4_witness :
    (fetchActiveTasks exDb 1).isEmpty = false ∧
      (unscheduledTasks exDb 1).isEmpty = false ∧
      extractSuggestions .noToolCalls = [] ∧
      genEndpoint (some "token") true exDb 1 (.ok .noToolCalls) =
        (exDb, ⟨200, .scheduled 0⟩) :=
  ⟨by decide, by decide, rfl,
    c4_unparseable_reply_gives_200_zero "token" exDb 1 .noToolCalls
      (by decide) (by decide) rfl⟩

/-- C6: every error thrown inside the body of the scheduling handler or of
the calendar-sync handler is caught by the outermost try/catch and
answered as a JSON error object, with status 500 for the scheduling
endpoint and 400 for the calendar sync; no outcome escapes the handlers
without a response. -/
theorem c6_outermost_catch (auth : Option String) (userOk : Bool)
    (db : List Task) (uid : Nat) (ai : Except String AiMessage)
    (pre : Option String) (stored : List String) (events : List GEvent)
    (uid2 : Nat) (e e2 : String) :
    (genBody auth userOk db uid ai = .error e →
      genEndpoint auth userOk db uid ai = (db, ⟨500, .errorObj e⟩)) ∧
    (syncBody pre stored events uid2 = .error e2 →
      syncEndpoint pre stored events uid2 = (stored, ⟨400, .errorObj e2⟩)) := by
  constructor
  · intro h
    unfold genEndpoint
    rw [h]
  · intro h
    unfold syncEndpoint
    rw [h]

/-- Witness for C6: a request without authorization header is answered
with status 500 by the scheduling endpoint, and an unauthorized sync
request with status 400, both as JSON error objects. -/
theorem c6_witness :
    genBody none true [] 0 (.ok .noToolCalls) =
        .error "No authorization header" ∧
      genEndpoint none true [] 0 (.ok .noToolCalls) =
        ([], ⟨500, .errorObj "No authorization header"⟩) ∧
      syncBody (some "Unauthorized") [] [] 0 = .error "Unauthorized" ∧
      syncEndpoint (some "Unauthorized") [] [] 0 =
        ([], ⟨400, .errorObj "Unauthorized"⟩) :=
  ⟨rfl,
    (c6_outermost_catch none true [] 0 (.ok .noToolCalls)
      (some "Unauthorized") [] [] 0 "No authorization header"
      "Unauthorized").1 rfl,
    rfl,
    (c6_outermost_catch none true [] 0 (.ok .noToolCalls)
      (some "Unauthorized") [] [] 0 "No authorization header"
      "Unauthorized").2 rfl⟩

/-- C8 counterexample: a Google Calendar sync request whose stored access
token is expired issues two outbound fetches (token refresh plus calendar
fetch), so the claim that every request performs at most a single
outbound HTTP call is false. -/
theorem c8_counterexample : ¬ (googleSyncFetchCount true true ≤ 1) := by
  decide

/-- C8 amended: the scheduling endpoint issues exactly one outbound call;
the Google sync issues one, plus one preceding token-refresh call exactly
when the stored token is missing or expired; the Canvas sync issues one
courses call plus one per returned course; no call is retried, so a
failed call only ever lowers the count. -/
theorem c8_amended_fetch_counts :
    generateSuggestionsFetchCount = 1 ∧
      (∀ r, googleSyncFetchCount false r = 1) ∧
      googleSyncFetchCount true true = 2 ∧
      googleSyncFetchCount true false = 1 ∧
      (∀ n, canvasSyncFetchCount n true = 1 + n) ∧
      (∀ n, canvasSyncFetchCount n false = 1) :=
  ⟨rfl, fun _ => rfl, rfl, rfl, fun _ => rfl, fun _ => rfl⟩

/-- C9: with a configured downtime window parsing to start and end
minutes-of-day, the membership check returns true exactly on times t with
start less-or-equal t and t strictly below end; consequently, for an
overnight window (start after end) the check is false for every time and
the task-creation flow never raises the downtime warning. -/
theorem c9_downtime_check (p : DowntimeProfile) (ds de : String)
    (hds : p.downtime_start = some ds) (hde : p.downtime_end = some de)
    (hds0 : ds ≠ "") (hde0 : de ≠ "") (s e : Nat)
    (hs : minutesOfDay ds = some s) (he : minutesOfDay de = some e) :
    (∀ (time : String) (t : Nat), time ≠ "" → minutesOfDay time = some t →
      isTimeInDowntime (some p) time = decide (s ≤ t ∧ t < e)) ∧
    (e < s →
      (∀ time, isTimeInDowntime (some p) time = false) ∧
      (∀ (db : List Task) (uid newId : Nat) (nt : NewTask) (force : Bool),
        (handleCreateTask db uid newId nt force (some p)).2 ≠
          .downtimeWarning)) := by
  have h1 : jsTruthy (some ds) = true := by
    simp [jsTruthy, hds0]
  have h2 : jsTruthy (some de) = true := by
    simp [jsTruthy, hde0]
  have hmain : ∀ (time : String) (t : Nat), time ≠ "" →
      minutesOfDay time = some t →
      isTimeInDowntime (some p) time = decide (s ≤ t ∧ t < e) := by
    intro time t ht hmt
    have h3 : (time == "") = false := beq_eq_false_iff_ne.mpr ht
    simp [isTimeInDowntime, h1, h2, h3, hds, hde, hmt, hs, he]
  refine ⟨hmain, fun hlt => ?_⟩
  have hall : ∀ time, isTimeInDowntime (some p) time = false := by
    intro time
    by_cases ht : time = ""
    · simp [isTimeInDowntime, ht]
    · cases hmt : minutesOfDay time with
      | none =>
        have h3 : (time == "") = false := beq_eq_false_iff_ne.mpr ht
        simp [isTimeInDowntime, h1, h2, h3, hds, hde, hmt, hs, he]
      | some t =>
        rw [hmain time t ht hmt]
        simp only [decide_eq_false_iff_not]
        rintro ⟨hst, hte⟩
        omega
  refine ⟨hall, ?_⟩
  intro db uid newId nt force
  unfold handleCreateTask
  split
  · simp
  · split
    · simp
    · split
      · rename_i hcond
        rw [hall nt.scheduled_time] at hcond
        simp at hcond
      · simp

/-- Witness for C9 at the overnight window 22:00 to 06:00. -/
theorem c9_witness :
    isTimeInDowntime (some exOvernightProfile) "23:00" = false ∧
      (handleCreateTask [] 1 5 exTagsTask false
        (some exOvernightProfile)).2 ≠ .downtimeWarning := by
  have h := c9_downtime_check exOvernightProfile "22:00:00" "06:00:00" rfl
    rfl (by decide) (by decide) 1320 360 (by decide) (by decide)
  exact ⟨(h.2 (by decide)).1 "23:00", (h.2 (by decide)).2 [] 1 5 exTagsTask
    false⟩

/-- C10: a date-only suggested start gets `T09:00:00Z` appended, so the
stored time is 09:00:00 UTC on that very date; and a suggested start that
contains no z and does not end in a numeric offset is interpreted as UTC
by appending `Z`. -/
theorem c10_ensureFullISO (s tz : String) :
    (matchesDateOnly s = true →
      ensureFullISO s tz = s ++ "T09:00:00Z" ∧
      isoDatePart (ensureFullISO s tz) = s ∧
      isoTimePart (ensureFullISO s tz) = "09:00:00") ∧
    (matchesDateOnly s = false → hasZChar s = false →
      endsWithOffset s = false → ensureFullISO s tz = s ++ "Z") := by
  constructor
  · intro h
    have heq : ensureFullISO s tz = s ++ "T09:00:00Z" := by
      unfold ensureFullISO
      rw [h]
      simp
    have hlen : s.data.length = 10 := by
      unfold matchesDateOnly at h
      simp only [Bool.and_eq_true] at h
      exact beq_iff_eq.mp h.1.1.1
    have hdata : (s ++ "T09:00:00Z").data = s.data ++ "T09:00:00Z".data := by
      simp [String.data_append]
    refine ⟨heq, ?_, ?_⟩
    · unfold isoDatePart
      rw [heq, hdata, List.take_append_of_le_length (by omega), ← hlen,
        List.take_length]
    · unfold isoTimePart
      rw [heq, hdata,
        show (11 : Nat) = s.data.length + 1 from by omega,
        List.drop_append]
      decide
  · intro h hz ho
    unfold ensureFullISO
    rw [h]
    simp [hz, ho]

/-- Witness for C10 at a date-only start and a start without timezone. -/
theorem c10_witness :
    matchesDateOnly "2025-11-22" = true ∧
      ensureFullISO "2025-11-22" "UTC" = "2025-11-22T09:00:00Z" ∧
      isoDatePart (ensureFullISO "2025-11-22" "UTC") = "2025-11-22" ∧
      isoTimePart (ensureFullISO "2025-11-22" "UTC") = "09:00:00" ∧
      ensureFullISO "2025-11-22T14:00:00" "UTC" = "2025-11-22T14:00:00Z" := by
  have h1 := (c10_ensureFullISO "2025-11-22" "UTC").1 (by decide)
  have h2 := (c10_ensureFullISO "2025-11-22T14:00:00" "UTC").2 (by decide)
    (by decide) (by decide)
  exact ⟨by decide, h1.1, h1.2.1, h1.2.2, h2⟩

/-- C1 counterexample: a run over two unscheduled tasks in which the model
replies with two slots thirty minutes apart writes both one-hour
assignments as given, so the written intervals overlap and the claimed
non-overlap property of every run is false. -/
theorem c1_counterexample : ¬ runNonOverlapping exDb [] 1 exOverlapSuggs := by
  decide

/-- C1 amended: the endpoint copies the suggested slots of the model into the
task rows verbatim; each unscheduled task carrying at least one matching
suggestion ends the run with the date and time of its last matching
suggestion, with no overlap check against other assignments, scheduled
tasks, or calendar events. -/
theorem c1_amended_suggestions_written_verbatim (db : List Task) (uid : Nat)
    (suggs : List Suggestion) (t : Task) (ht : t ∈ unscheduledTasks db uid)
    (s : Suggestion)
    (hs : (suggs.filter fun s2 => s2.task_id == t.id).getLast? = some s) :
    ∃ u ∈ runUpdates db uid suggs,
      u.id = t.id ∧
      u.scheduled_date = some (isoDatePart s.suggested_start) ∧
      u.scheduled_time = some (isoTimePart s.suggested_start) ∧
      u.status = "scheduled" := by
  unfold runUpdates
  exact foldl_last_match db uid t ht suggs db rfl s hs

/-- Witness for the amended C1 at the overlapping run. -/
theorem c1_amended_witness :
    ∃ u ∈ runUpdates exDb 1 exOverlapSuggs,
      u.id = ({ baseTask with id := 1, title := "write report" } : Task).id ∧
      u.scheduled_date = some (isoDatePart "2026-10-13T09:00:00Z") ∧
      u.scheduled_time = some (isoTimePart "2026-10-13T09:00:00Z") ∧
      u.status = "scheduled" :=
  c1_amended_suggestions_written_verbatim exDb 1 exOverlapSuggs
    { baseTask with id := 1, title := "write report" } (by decide)
    ⟨1, "2026-10-13T09:00:00Z", 60⟩ (by decide)

/-- C2 counterexample: in a run whose model reply omits the second of two
unscheduled tasks, no fallback schedules the missed task, so the run ends
with an unscheduled task left and the claimed completeness is false. -/
theorem c2_counterexample :
    ¬ everyUnscheduledEndsScheduled exDb 1 exOmitReply := by
  decide

/-- C2 amended: there is no fallback loop; a task that no suggestion in
the model reply names is left completely untouched by the run, and in
particular an unscheduled task omitted by the model ends the run still
unscheduled. -/
theorem c2_amended_omitted_task_untouched (db : List Task) (uid : Nat)
    (suggs : List Suggestion) (i : Nat) (t : Task) (hdb : db[i]? = some t)
    (homit : ∀ s ∈ suggs, s.task_id ≠ t.id) :
    (runUpdates db uid suggs)[i]? = some t := by
  have h : ∀ s ∈ suggs, ∀ u : Task, db[i]? = some u → s.task_id ≠ u.id := by
    intro s hs u hu
    rw [hdb] at hu
    injection hu with h2
    rw [← h2]
    exact homit s hs
  unfold runUpdates
  rw [foldl_applySuggestion_getElem?_untouched _ suggs db i h, hdb]

/-- Witness for the amended C2: the omitted second task survives the run
unchanged, still without date and time. -/
theorem c2_amended_witness :
    exDb[1]? = some { baseTask with id := 2, title := "review notes" } ∧
      (runUpdates exDb 1 exOmitSuggs)[1]? =
        some { baseTask with id := 2, title := "review notes" } :=
  ⟨by decide,
    c2_amended_omitted_task_untouched exDb 1 exOmitSuggs 1 _ (by decide)
      (by decide)⟩

/-- C3: a scheduling run keeps the number of rows, leaves every row either
unchanged or, only for rows that were fetched as non-deleted with status
pending or scheduled and were missing date or time, changed in nothing but
`scheduled_date`, `scheduled_time` and `status`; and dropping the
suggestions whose task id is not found in the unscheduled list does not
change the outcome, so those suggestions cause no write. -/
theorem c3_frame_of_update_loop (db : List Task) (uid : Nat)
    (suggs : List Suggestion)
    (hinj : ∀ t ∈ db, ∀ w ∈ db, t.id = w.id → t = w) :
    (runUpdates db uid suggs).length = db.length ∧
      (∀ i : Nat,
        (runUpdates db uid suggs)[i]? = db[i]? ∨
          ∃ t u, db[i]? = some t ∧ (runUpdates db uid suggs)[i]? = some u ∧
            t ∈ unscheduledTasks db uid ∧ onlyScheduleFieldsChanged t u) ∧
      runUpdates db uid (suggs.filter fun s =>
        ((unscheduledTasks db uid).find? fun t => t.id == s.task_id).isSome) =
        runUpdates db uid suggs := by
  refine ⟨runUpdates_length db uid suggs, ?_, ?_⟩
  · intro i
    unfold runUpdates
    exact frame_foldl db uid hinj suggs db (fun _ => Or.inl rfl) i
  · unfold runUpdates
    exact foldl_filter_accepted (unscheduledTasks db uid) suggs db

/-- Witness for C3 at the concrete two-task run. -/
theorem c3_witness :
    (∀ t ∈ exDb, ∀ w ∈ exDb, t.id = w.id → t = w) ∧
      ((runUpdates exDb 1 exOmitSuggs).length = exDb.length ∧
        (∀ i : Nat,
          (runUpdates exDb 1 exOmitSuggs)[i]? = exDb[i]? ∨
            ∃ t u, exDb[i]? = some t ∧
              (runUpdates exDb 1 exOmitSuggs)[i]? = some u ∧
              t ∈ unscheduledTasks exDb 1 ∧ onlyScheduleFieldsChanged t u) ∧
        runUpdates exDb 1 (exOmitSuggs.filter fun s =>
          ((unscheduledTasks exDb 1).find? fun t => t.id == s.task_id).isSome) =
          runUpdates exDb 1 exOmitSuggs) :=
  ⟨by decide, c3_frame_of_update_loop exDb 1 exOmitSuggs (by decide)⟩

/-- C5 counterexample: over the event list holding a single event without
a start field and an empty store, the sync inserts nothing and reports 0
synced, while the events not previously stored number 1, so the claimed
count equation fails. -/
theorem c5_counterexample : ¬ syncIdempotenceClaim [] [evNoStart] 7 := by
  decide

/-- C5 amended: the sync inserts only events whose id is not already
stored; running it a second time over the same event list inserts
nothing; and the reported count equals the number of events with a usable
start whose id was not previously stored. -/
theorem c5_amended_sync_idempotent (stored : List String)
    (events : List GEvent) (uid : Nat) :
    (∀ pid ∈ syncInsertedIds stored events uid, pid ∉ stored) ∧
      syncInsertedIds (syncStored stored events uid) events uid = [] ∧
      (∀ n, syncCount stored events uid = some n →
        n = (newEventsOf stored events).length) := by
  refine ⟨?_, ?_, ?_⟩
  · intro pid hpid
    unfold syncInsertedIds at hpid
    cases hb : buildRows uid (newEventsOf stored events) with
    | error u =>
      rw [hb] at hpid
      simp at hpid
    | ok rows =>
      rw [hb] at hpid
      have hpid2 : pid ∈ rows.map CalendarRow.provider_event_id := hpid
      rw [buildRows_ok_map uid _ rows hb] at hpid2
      obtain ⟨e, he, heid⟩ := List.mem_map.mp hpid2
      unfold newEventsOf at he
      have hcond := (List.mem_filter.mp he).2
      have hnc : (stored.contains e.id) = false := by
        have := (Bool.and_eq_true _ _).mp hcond
        simpa using this.2
      rw [← heid]
      simpa using hnc
  · cases hb : buildRows uid (newEventsOf stored events) with
    | error u =>
      have h1 : syncInsertedIds stored events uid = [] := by
        unfold syncInsertedIds
        rw [hb]
      unfold syncStored
      rw [h1, List.append_nil]
      exact h1
    | ok rows =>
      have hids : rows.map CalendarRow.provider_event_id =
          (newEventsOf stored events).map GEvent.id :=
        buildRows_ok_map uid _ rows hb
      have h1 : syncInsertedIds stored events uid =
          rows.map CalendarRow.provider_event_id := by
        unfold syncInsertedIds
        rw [hb]
      unfold syncStored
      rw [h1]
      have hempty : newEventsOf
          (stored ++ rows.map CalendarRow.provider_event_id) events = [] := by
        unfold newEventsOf
        rw [List.filter_eq_nil_iff]
        intro e he hcontra
        have hparts := (Bool.and_eq_true _ _).mp hcontra
        have hnc : ((stored ++ rows.map CalendarRow.provider_event_id).contains
            e.id) = false := by
          simpa using hparts.2
        have hnm : e.id ∉ stored ++ rows.map CalendarRow.provider_event_id := by
          simpa using hnc
        by_cases hst : stored.contains e.id = true
        · exact hnm (List.mem_append_left _ (by simpa using hst))
        · have hstm : e.id ∉ stored := by simpa using hst
          have hmemnew : e ∈ newEventsOf stored events := by
            unfold newEventsOf
            exact List.mem_filter.mpr ⟨he, by simp [hparts.1, hstm]⟩
          have : e.id ∈ rows.map CalendarRow.provider_event_id := by
            rw [hids]
            exact List.mem_map_of_mem GEvent.id hmemnew
          exact hnm (List.mem_append_right _ this)
      unfold syncInsertedIds
      rw [hempty]
      rfl
  · intro n hn
    unfold syncCount at hn
    cases hb : buildRows uid (newEventsOf stored events) with
    | error u =>
      rw [hb] at hn
      exact absurd hn (by simp)
    | ok rows =>
      rw [hb] at hn
      have hlen := Option.some.inj hn
      rw [← hlen]
      have hids := buildRows_ok_map uid _ rows hb
      have h1 : (rows.map CalendarRow.provider_event_id).length =
          ((newEventsOf stored events).map GEvent.id).length := by
        rw [hids]
      simpa using h1

/-- Witness for the amended C5: syncing one well-formed new event next to
one previously stored id inserts exactly that event, and syncing again
inserts nothing. -/
theorem c5_amended_witness :
    ("ev-2" ∈ syncInsertedIds ["other"] [evGood] 7) ∧
      ("ev-2" ∉ ["other"]) ∧
      syncInsertedIds (syncStored ["other"] [evGood] 7) [evGood] 7 = [] ∧
      syncCount ["other"] [evGood] 7 = some 1 ∧
      1 = (newEventsOf ["other"] [evGood]).length :=
  ⟨by decide,
    (c5_amended_sync_idempotent ["other"] [evGood] 7).1 "ev-2" (by decide),
    (c5_amended_sync_idempotent ["other"] [evGood] 7).2.1,
    by decide,
    (c5_amended_sync_idempotent ["other"] [evGood] 7).2.2 1 (by decide)⟩

/-- C7 counterexample: creating a task whose tags field contains a double
comma stores the tags with the empty entry dropped, so no fetched row
carries the plainly split-and-trimmed list the claim describes. -/
theorem c7_counterexample :
    ¬ createReadBackClaim [] 1 5 exTagsTask none false := by
  decide

/-- C7 amended: every task inserted through the creation flow can be read
back by the task fetch with exactly the submitted values, where the tags
string is split on commas, trimmed, and stripped of empty entries, empty
date, time and end-date become null, and the row starts with status
pending. -/
theorem c7_amended_created_task_reads_back (db : List Task)
    (uid newId : Nat) (nt : NewTask) (profile : Option DowntimeProfile)
    (force : Bool)
    (h : (handleCreateTask db uid newId nt force profile).2 = .created) :
    ∃ t ∈ fetchTasks (handleCreateTask db uid newId nt force profile).1 uid,
      t.title = nt.title ∧ t.description = nt.description ∧
      t.duration_minutes = nt.duration_minutes ∧ t.priority = nt.priority ∧
      t.tags = splitTags nt.tags ∧
      t.scheduled_date = jsOrNull nt.scheduled_date ∧
      t.scheduled_time = jsOrNull nt.scheduled_time ∧
      t.commute_minutes = nt.commute_minutes ∧
      t.recurrence_pattern = nt.recurrence_pattern ∧
      t.recurrence_days = nt.recurrence_days ∧
      t.recurrence_end_date = jsOrNull nt.recurrence_end_date ∧
      t.status = "pending" := by
  unfold handleCreateTask at h ⊢
  split at h
  · simp at h
  · split at h
    · simp at h
    · split at h
      · simp at h
      · rename_i h1 h2 h3
        rw [if_neg h1, if_neg h2, if_neg h3]
        refine ⟨insertedTask uid newId nt, ?_,
          rfl, rfl, rfl, rfl, rfl, rfl, rfl, rfl, rfl, rfl, rfl, rfl⟩
        unfold fetchTasks
        refine List.mem_filter.mpr ⟨?_, by simp [insertedTask]⟩
        exact List.mem_append_right db (by simp)

/-- Witness for the amended C7 at the double-comma tags input. -/
theorem c7_amended_witness :
    (handleCreateTask [] 1 5 exTagsTask false none).2 = .created ∧
      ∃ t ∈ fetchTasks (handleCreateTask [] 1 5 exTagsTask false none).1 1,
        t.title = exTagsTask.title ∧ t.description = exTagsTask.description ∧
        t.duration_minutes = exTagsTask.duration_minutes ∧
        t.priority = exTagsTask.priority ∧
        t.tags = splitTags exTagsTask.tags ∧
        t.scheduled_date = jsOrNull exTagsTask.scheduled_date ∧
        t.scheduled_time = jsOrNull exTagsTask.scheduled_time ∧
        t.commute_minutes = exTagsTask.commute_minutes ∧
        t.recurrence_pattern = exTagsTask.recurrence_pattern ∧
        t.recurrence_days = exTagsTask.recurrence_days ∧
        t.recurrence_end_date = jsOrNull exTagsTask.recurrence_end_date ∧
        t.status = "pending" :=
  ⟨by decide,
    c7_amended_created_task_reads_back [] 1 5 exTagsTask none false
      (by decide)⟩

end TimeWise
